import Mathlib

/-!
# VariableChoiceSystem — shallow embedding and verification

A shallow embedding of `src/VariableChoiceSystem.js` (RPG Maker MZ plugin):
a non-blocking choice session stored on `Game_System`, presented by
`Window_VariableChoice`, driven per tick by `Scene_Map.updateVariableChoice`,
with a distance-based forced resolution in
`Scene_Map.checkDistanceCondition`.

JavaScript values are modelled as follows: `$gameVariables` is an `Int → Int`
store; the session object `_variableChoiceData` is an `Option ChoiceData`
(`none` = the slot was never written); the nullable `forcedIndex` is an
`Option Int`; the optional `distanceCondition` is an `Option
DistanceCondition`; `setTimeout(() => setValue(v, 0), 100)` is recorded as a
pending `(v, 100)` entry in `pendingResets`, fired later by `fireReset`.
Window open/close animation follows the host engine's `Window_Base`
behaviour (`openness` moves by 32 per frame towards 255 / 0).
-/

namespace VariableChoiceSystem

/-- The optional third argument of `setupVariableChoice`
(`{eventId, distance, index}`): resolve the session with `index` written
verbatim once the event is within Manhattan `distance` of the player. -/
structure DistanceCondition where
  eventId : Int
  distance : Int
  index : Int
  deriving Repr, DecidableEq

/-- The session object installed as `$gameSystem._variableChoiceData`
(source lines 242-248). -/
structure ChoiceData where
  choices : List String
  variableId : Int
  isActive : Bool
  forcedIndex : Option Int
  distanceCondition : Option DistanceCondition
  deriving Repr, DecidableEq

/-- The presentation surface `Window_VariableChoice`: the engine-level
fields the plugin's logic reads and writes. `openness` runs 0..255;
`opening`/`closing` are the animation flags; `index` is the highlighted
row (-1 = nothing selected). -/
structure ChoiceWindow where
  openness : Int
  opening : Bool
  closing : Bool
  active : Bool
  index : Int
  deriving Repr, DecidableEq

/-- The global state the plugin touches: the session slot, the choice
window, `$gameVariables`, the pending delayed resets, the player's grid
position, and the map's events (`$gameMap.event(id)` as a partial map from
event id to grid position). -/
structure GameState where
  choiceData : Option ChoiceData
  window : ChoiceWindow
  gameVariables : Int → Int
  pendingResets : List (Int × Nat)
  playerX : Int
  playerY : Int
  events : Int → Option (Int × Int)

/-- `$gameVariables.setValue(id, v)`. -/
def setValue (vars : Int → Int) (id : Int) (v : Int) : Int → Int :=
  fun i => if i = id then v else vars i

/-- The JS test `this._variableChoiceData?.isActive` used as a boolean:
`false` when the slot is absent. -/
def isActiveData (o : Option ChoiceData) : Bool :=
  match o with
  | some d => d.isActive
  | none => false

/-- JS truthiness of the nullable number `forcedIndex`, as tested by
`!choiceData.forcedIndex` (source line 182): `null` and `0` are falsy. -/
def forcedTruthy (o : Option Int) : Bool :=
  match o with
  | some k => k != 0
  | none => false

/-- Engine `Window_Base.open()`: start the opening animation unless
already fully open; always clear the closing flag. -/
def windowOpen (w : ChoiceWindow) : ChoiceWindow :=
  { w with opening := if w.openness < 255 then true else w.opening,
           closing := false }

/-- Engine `Window_Base.close()`: start the closing animation unless
already fully closed; always clear the opening flag. -/
def windowClose (w : ChoiceWindow) : ChoiceWindow :=
  { w with closing := if w.openness > 0 then true else w.closing,
           opening := false }

/-- `Window.deactivate()`. -/
def deactivate (w : ChoiceWindow) : ChoiceWindow :=
  { w with active := false }

/-- `Window.activate()`. -/
def activate (w : ChoiceWindow) : ChoiceWindow :=
  { w with active := true }

/-- `Window_Selectable.select(i)` restricted to the highlight index field. -/
def select (i : Int) (w : ChoiceWindow) : ChoiceWindow :=
  { w with index := i }

/-- Engine `Window_Base.updateOpen()`: while opening, `openness` grows by
32 per frame (the setter clamps to 255); the flag drops once fully open. -/
def updateOpen (w : ChoiceWindow) : ChoiceWindow :=
  if w.opening then
    let o := min (w.openness + 32) 255
    { w with openness := o, opening := decide (o < 255) }
  else w

/-- Engine `Window_Base.updateClose()`: while closing, `openness` shrinks
by 32 per frame (the setter clamps to 0); the flag drops once fully
closed. -/
def updateClose (w : ChoiceWindow) : ChoiceWindow :=
  if w.closing then
    let o := max (w.openness - 32) 0
    { w with openness := o, closing := decide (o > 0) }
  else w

/-- One frame of the engine's window animation (`Window_Base.update`). -/
def windowAnim (w : ChoiceWindow) : ChoiceWindow :=
  updateClose (updateOpen w)

/-- `Window_VariableChoice.callOkHandler` (source lines 123-136): read the
highlighted index; if the session's `variableId` is positive, write
`index + 1` to it and schedule a 100 ms reset to 0; deactivate and close
the window; mark the session inactive. -/
def callOkHandler (s : GameState) : GameState :=
  let selectedIndex := s.window.index
  let s1 :=
    match s.choiceData with
    | some d =>
      if d.variableId > 0 then
        { s with gameVariables := setValue s.gameVariables d.variableId (selectedIndex + 1),
                 pendingResets := s.pendingResets ++ [(d.variableId, 100)] }
      else s
    | none => s
  let s2 := { s1 with window := windowClose (deactivate s1.window) }
  match s2.choiceData with
  | some d => { s2 with choiceData := some { d with isActive := false } }
  | none => s2

/-- The surface's commit dispatch. The host engine's
`Window_Selectable.processOk` is an external collaborator (out of the
repository); per the surface interface it deactivates the window and
routes the commit event to the plugin's `callOkHandler`. -/
def processOk (s : GameState) : GameState :=
  callOkHandler { s with window := deactivate s.window }

/-- `CommitSelection(i)`: the player (or a drain path) confirms row `i`;
the surface selects it and dispatches the commit. -/
def commitSelection (i : Int) (s : GameState) : GameState :=
  processOk { s with window := select i s.window }

/-- `Window_VariableChoice.processCancel` (source lines 138-141): the
override's body is empty, discarding the base class's
deactivate-and-call-cancel-handler behaviour, so cancel input changes
nothing. -/
def processCancel (s : GameState) : GameState := s

/-- The delayed `setTimeout` callback firing: set the captured variable
to 0 (source lines 129-131 and 213-215). -/
def fireReset (variableId : Int) (s : GameState) : GameState :=
  { s with gameVariables := setValue s.gameVariables variableId 0 }

/-- `Window_VariableChoice.update` (source lines 112-121): one frame of
engine window animation, then, while the window is active and a forced
index is pending (`forcedIndex != null`), select it, run `processOk`, and
clear `forcedIndex`. -/
def windowUpdate (s : GameState) : GameState :=
  let s0 := { s with window := windowAnim s.window }
  if s0.window.active then
    match s0.choiceData with
    | some d =>
      match d.forcedIndex with
      | some k =>
        let s1 := processOk { s0 with window := select k s0.window }
        match s1.choiceData with
        | some d1 => { s1 with choiceData := some { d1 with forcedIndex := none } }
        | none => s1
      | none => s0
    | none => s0
  else s0

/-- `Scene_Map.checkDistanceCondition` (source lines 187-229): look up the
event; if absent, no-op. Otherwise compute the Manhattan distance to the
player; within the threshold, write `index` verbatim (when `variableId >
0`) with a 100 ms reset, force-close the window if active, deactivate the
session and clear the condition. -/
def checkDistanceCondition (s : GameState) : GameState :=
  match s.choiceData with
  | none => s
  | some d =>
    match d.distanceCondition with
    | none => s
    | some dc =>
      match s.events dc.eventId with
      | none => s
      | some pos =>
        let calculatedDistance := |s.playerX - pos.1| + |s.playerY - pos.2|
        if calculatedDistance ≤ dc.distance then
          let s1 :=
            if d.variableId > 0 then
              { s with gameVariables := setValue s.gameVariables d.variableId dc.index,
                       pendingResets := s.pendingResets ++ [(d.variableId, 100)] }
            else s
          let s2 :=
            if s1.window.active then
              { s1 with window := windowClose (deactivate s1.window) }
            else s1
          { s2 with choiceData := some { d with isActive := false,
                                                distanceCondition := none } }
        else s

/-- `Scene_Map.updateVariableChoice` (source lines 157-185): if the
session is active and the window is fully closed and inactive, reset the
destination variable to 0, open and activate the window with no row
highlighted, and immediately drain a pending `forcedIndex` through the
commit path. Afterwards, if the session is (still) active, carries a
distance condition, and `forcedIndex` is falsy, run the distance check. -/
def updateVariableChoice (s : GameState) : GameState :=
  let s1 :=
    match s.choiceData with
    | some d =>
      if d.isActive && s.window.openness == 0 && !s.window.active then
        let sA :=
          if d.variableId > 0 then
            { s with gameVariables := setValue s.gameVariables d.variableId 0 }
          else s
        let sB := { sA with window := select (-1) (activate (windowOpen sA.window)) }
        match d.forcedIndex with
        | some k =>
          let sC := processOk { sB with window := select k sB.window }
          match sC.choiceData with
          | some d1 => { sC with choiceData := some { d1 with forcedIndex := none } }
          | none => sC
        | none => sB
      else s
    | none => s
  match s1.choiceData with
  | some d =>
    if d.isActive && d.distanceCondition.isSome && !(forcedTruthy d.forcedIndex) then
      checkDistanceCondition s1
    else s1
  | none => s1

/-- One world tick as wired by the plugin: `Scene_Map.update` first runs
the base update (which updates the windows, hence
`Window_VariableChoice.update`), then `updateVariableChoice`
(source lines 151-155). -/
def tick (s : GameState) : GameState :=
  updateVariableChoice (windowUpdate s)

/-- `Game_System.setupVariableChoice` (source lines 231-249): if a session
is already active, return unchanged; otherwise write the `-1` sentinel to
a positive `variableId` and install a fresh active session with no forced
index. -/
def setupVariableChoice (choices : List String) (variableId : Int)
    (distanceCondition : Option DistanceCondition) (s : GameState) : GameState :=
  if isActiveData s.choiceData then s
  else
    let vars :=
      if variableId > 0 then setValue s.gameVariables variableId (-1) else s.gameVariables
    { s with gameVariables := vars,
             choiceData := some { choices := choices, variableId := variableId,
                                  isActive := true, forcedIndex := none,
                                  distanceCondition := distanceCondition } }

/-- C1: with a session already active, `setupVariableChoice` leaves the
whole state unchanged: no session field is touched and no variable (in
particular no `-1` sentinel) is written. -/
theorem start_is_noop_when_active (c : List String) (v : Int)
    (dc : Option DistanceCondition) (s : GameState) (d : ChoiceData)
    (hd : s.choiceData = some d) (h : d.isActive = true) :
    setupVariableChoice c v dc s = s := by
  simp [setupVariableChoice, isActiveData, hd, h]

def idleWindow : ChoiceWindow :=
  { openness := 0, opening := false, closing := false, active := false, index := -1 }

def activeData : ChoiceData :=
  { choices := ["A", "B"], variableId := 7, isActive := true,
    forcedIndex := none, distanceCondition := none }

def activeState : GameState :=
  { choiceData := some activeData, window := idleWindow, gameVariables := fun _ => 0,
    pendingResets := [], playerX := 0, playerY := 0, events := fun _ => none }

/-- Witness for C1 at a concrete active state. -/
theorem start_is_noop_when_active_witness :
    setupVariableChoice ["Z"] 9 none activeState = activeState :=
  start_is_noop_when_active ["Z"] 9 none activeState activeData rfl rfl

/-- C10: calling `setupVariableChoice` when the session slot was never
written (`_variableChoiceData` is `undefined`) does not fault: the absent
slot counts as no active session, a fresh session is installed with
`isActive = true` and `forcedIndex = none`, and the result is the same
state as when starting over an idle (inactive) prior session. -/
theorem setup_from_empty_slot (c : List String) (v : Int)
    (dc : Option DistanceCondition) (s : GameState) (h : s.choiceData = none) :
    (setupVariableChoice c v dc s).choiceData =
      some { choices := c, variableId := v, isActive := true,
             forcedIndex := none, distanceCondition := dc } ∧
    isActiveData (setupVariableChoice c v dc s).choiceData = true ∧
    ∀ d : ChoiceData, d.isActive = false →
      setupVariableChoice c v dc { s with choiceData := some d } =
        setupVariableChoice c v dc s := by
  refine ⟨?_, ?_, ?_⟩
  · simp [setupVariableChoice, isActiveData, h]
  · simp [setupVariableChoice, isActiveData, h]
  · intro d hd
    simp [setupVariableChoice, isActiveData, h, hd]

def emptyState : GameState :=
  { choiceData := none, window := idleWindow, gameVariables := fun _ => 0,
    pendingResets := [], playerX := 0, playerY := 0, events := fun _ => none }

/-- Witness for C10 at the never-written state. -/
theorem setup_from_empty_slot_witness :
    (setupVariableChoice ["A"] 5 none emptyState).choiceData =
      some { choices := ["A"], variableId := 5, isActive := true,
             forcedIndex := none, distanceCondition := none } ∧
    isActiveData (setupVariableChoice ["A"] 5 none emptyState).choiceData = true ∧
    ∀ d : ChoiceData, d.isActive = false →
      setupVariableChoice ["A"] 5 none { emptyState with choiceData := some d } =
        setupVariableChoice ["A"] 5 none emptyState :=
  setup_from_empty_slot ["A"] 5 none emptyState rfl

/-- C2: committing index `i` on a session with positive `variableId`
writes `i + 1` to the destination variable, schedules the 100 ms reset to
0 (which, when fired, puts the variable back to 0), deactivates and closes
the window, and marks the session inactive. -/
theorem commitSelection_spec (i : Int) (s : GameState) (d : ChoiceData)
    (hd : s.choiceData = some d) (hv : d.variableId > 0) :
    (commitSelection i s).gameVariables d.variableId = i + 1 ∧
    (commitSelection i s).pendingResets = s.pendingResets ++ [(d.variableId, 100)] ∧
    (commitSelection i s).window.active = false ∧
    ((commitSelection i s).window.openness ≤ 0 ∨
      (commitSelection i s).window.closing = true) ∧
    (commitSelection i s).choiceData = some { d with isActive := false } ∧
    (fireReset d.variableId (commitSelection i s)).gameVariables d.variableId = 0 := by
  refine ⟨?_, ?_, ?_, ?_, ?_, ?_⟩ <;>
    simp [commitSelection, processOk, callOkHandler, hd, hv, select, deactivate,
          windowClose, setValue, fireReset]
  rcases le_or_lt s.window.openness 0 with hle | hlt
  · exact Or.inl hle
  · exact Or.inr (by simp [hlt])

/-- Witness for C2: committing index 1 on the concrete active session
(variable 7) yields 2, a scheduled reset, a closed inactive window, and a
0 after the reset fires. -/
theorem commitSelection_spec_witness :
    (commitSelection 1 activeState).gameVariables activeData.variableId = 1 + 1 ∧
    (commitSelection 1 activeState).pendingResets =
      activeState.pendingResets ++ [(activeData.variableId, 100)] ∧
    (commitSelection 1 activeState).window.active = false ∧
    ((commitSelection 1 activeState).window.openness ≤ 0 ∨
      (commitSelection 1 activeState).window.closing = true) ∧
    (commitSelection 1 activeState).choiceData =
      some { activeData with isActive := false } ∧
    (fireReset activeData.variableId
        (commitSelection 1 activeState)).gameVariables activeData.variableId = 0 :=
  commitSelection_spec 1 activeState activeData rfl (by decide)

/-- C7: cancel/back input runs the empty `processCancel` override, which
changes nothing: session slot, game variables, pending resets, and the
window (its open/active state included) are all unchanged, so a session
cannot end by player withdrawal. -/
theorem processCancel_noop (s : GameState) :
    processCancel s = s ∧
    (processCancel s).choiceData = s.choiceData ∧
    (processCancel s).gameVariables = s.gameVariables ∧
    (processCancel s).pendingResets = s.pendingResets ∧
    (processCancel s).window = s.window := by
  simp [processCancel]

/-- C8: when the distance condition's event id resolves to no event, the
distance check returns the state unchanged: no variable write, the
session (with its armed trigger) intact, and `isActive` still true. -/
theorem checkDistance_missing_entity_noop (s : GameState) (d : ChoiceData)
    (dc : DistanceCondition) (hd : s.choiceData = some d)
    (hact : d.isActive = true) (hdc : d.distanceCondition = some dc)
    (hev : s.events dc.eventId = none) :
    checkDistanceCondition s = s ∧
    (checkDistanceCondition s).choiceData = some d ∧
    isActiveData (checkDistanceCondition s).choiceData = true := by
  have hs : checkDistanceCondition s = s := by
    simp [checkDistanceCondition, hd, hdc, hev]
  exact ⟨hs, by rw [hs, hd], by rw [hs, hd]; simp [isActiveData, hact]⟩

def armedData : ChoiceData :=
  { choices := ["X", "Y"], variableId := 3, isActive := true,
    forcedIndex := none,
    distanceCondition := some { eventId := 4, distance := 1, index := 8 } }

def armedMissingEntityState : GameState :=
  { choiceData := some armedData, window := idleWindow,
    gameVariables := fun _ => 0, pendingResets := [], playerX := 0,
    playerY := 0, events := fun _ => none }

/-- Witness for C8 at a concrete armed session whose event is absent. -/
theorem checkDistance_missing_entity_noop_witness :
    checkDistanceCondition armedMissingEntityState = armedMissingEntityState ∧
    (checkDistanceCondition armedMissingEntityState).choiceData = some armedData ∧
    isActiveData (checkDistanceCondition armedMissingEntityState).choiceData = true :=
  checkDistance_missing_entity_noop armedMissingEntityState armedData
    { eventId := 4, distance := 1, index := 8 } rfl rfl rfl rfl

lemma windowAnim_active (w : ChoiceWindow) : (windowAnim w).active = w.active := by
  simp only [windowAnim, updateOpen, updateClose]
  split <;> split <;> rfl

/-- C3: when the session is active, the distance condition is armed, the
event exists, and the Manhattan distance is within the threshold, the
distance check writes the configured `index` verbatim (not `index + 1`)
to the positive destination variable with the 100 ms delayed reset to 0,
deactivates the session, clears the condition, leaves the window
inactive, and closes it if it was active. -/
theorem checkDistance_fires_spec (s : GameState) (d : ChoiceData)
    (dc : DistanceCondition) (ex ey : Int)
    (hd : s.choiceData = some d) (_hact : d.isActive = true)
    (hdc : d.distanceCondition = some dc)
    (hev : s.events dc.eventId = some (ex, ey))
    (hdist : |s.playerX - ex| + |s.playerY - ey| ≤ dc.distance)
    (hv : d.variableId > 0) :
    (checkDistanceCondition s).gameVariables d.variableId = dc.index ∧
    (checkDistanceCondition s).pendingResets =
      s.pendingResets ++ [(d.variableId, 100)] ∧
    (checkDistanceCondition s).choiceData =
      some { d with isActive := false, distanceCondition := none } ∧
    (checkDistanceCondition s).window.active = false ∧
    (s.window.active = true →
      ((checkDistanceCondition s).window.openness ≤ 0 ∨
        (checkDistanceCondition s).window.closing = true)) ∧
    (fireReset d.variableId (checkDistanceCondition s)).gameVariables
      d.variableId = 0 := by
  by_cases hwa : s.window.active = true
  · refine ⟨?_, ?_, ?_, ?_, ?_, ?_⟩ <;>
      simp [checkDistanceCondition, hd, hdc, hev, hdist, hv, setValue,
            deactivate, windowClose, fireReset, hwa]
    rcases le_or_lt s.window.openness 0 with hle | hlt
    · exact Or.inl hle
    · exact Or.inr (by simp [hlt])
  · refine ⟨?_, ?_, ?_, ?_, ?_, ?_⟩ <;>
      simp [checkDistanceCondition, hd, hdc, hev, hdist, hv, setValue,
            deactivate, windowClose, fireReset, hwa]

def armedNearData : ChoiceData :=
  { choices := ["X", "Y"], variableId := 20, isActive := true,
    forcedIndex := none,
    distanceCondition := some { eventId := 2, distance := 2, index := 99 } }

def openActiveWindow : ChoiceWindow :=
  { openness := 255, opening := false, closing := false, active := true, index := -1 }

def armedNearState : GameState :=
  { choiceData := some armedNearData, window := openActiveWindow,
    gameVariables := fun _ => 0, pendingResets := [], playerX := 0,
    playerY := 0, events := fun i => if i = 2 then some (1, 1) else none }

/-- Witness for C3: event 2 at (1,1), player at (0,0), threshold 2 — the
check writes 99 to variable 20 and tears the session and window down. -/
theorem checkDistance_fires_spec_witness :
    (checkDistanceCondition armedNearState).gameVariables
      armedNearData.variableId = (99 : Int) ∧
    (checkDistanceCondition armedNearState).pendingResets =
      armedNearState.pendingResets ++ [(armedNearData.variableId, 100)] ∧
    (checkDistanceCondition armedNearState).choiceData =
      some { armedNearData with isActive := false, distanceCondition := none } ∧
    (checkDistanceCondition armedNearState).window.active = false ∧
    (armedNearState.window.active = true →
      ((checkDistanceCondition armedNearState).window.openness ≤ 0 ∨
        (checkDistanceCondition armedNearState).window.closing = true)) ∧
    (fireReset armedNearData.variableId
        (checkDistanceCondition armedNearState)).gameVariables
      armedNearData.variableId = 0 :=
  checkDistance_fires_spec armedNearState armedNearData
    { eventId := 2, distance := 2, index := 99 } 1 1 rfl rfl rfl rfl
    (by decide) (by decide)

/-- C9: once the session is inactive (after any resolution path, which
also leaves the window inactive), a whole tick changes nothing except the
window's residual open/close animation: the session slot, variables and
pending resets are untouched, no second resolution occurs, and the
session stays torn down. -/
theorem tick_noop_after_resolution (s : GameState)
    (h1 : isActiveData s.choiceData = false) (h2 : s.window.active = false) :
    (tick s).choiceData = s.choiceData ∧
    (tick s).gameVariables = s.gameVariables ∧
    (tick s).pendingResets = s.pendingResets ∧
    (tick s).window.active = false ∧
    isActiveData (tick s).choiceData = false := by
  have hwa : (windowAnim s.window).active = false := by
    rw [windowAnim_active]; exact h2
  have key : tick s = { s with window := windowAnim s.window } := by
    cases hcd : s.choiceData with
    | none => simp [tick, windowUpdate, updateVariableChoice, hcd, hwa]
    | some d =>
      have hda : d.isActive = false := by simpa [isActiveData, hcd] using h1
      simp [tick, windowUpdate, updateVariableChoice, hcd, hda, hwa]
  rw [key]
  exact ⟨rfl, rfl, rfl, hwa, h1⟩

def resolvedData : ChoiceData :=
  { choices := ["X", "Y"], variableId := 20, isActive := false,
    forcedIndex := none, distanceCondition := none }

def resolvedState : GameState :=
  { choiceData := some resolvedData,
    window := { openness := 128, opening := false, closing := true,
                active := false, index := 1 },
    gameVariables := fun _ => 0, pendingResets := [(20, 100)], playerX := 0,
    playerY := 0, events := fun _ => none }

/-- Witness for C9 at a just-resolved state (window still closing). -/
theorem tick_noop_after_resolution_witness :
    (tick resolvedState).choiceData = resolvedState.choiceData ∧
    (tick resolvedState).gameVariables = resolvedState.gameVariables ∧
    (tick resolvedState).pendingResets = resolvedState.pendingResets ∧
    (tick resolvedState).window.active = false ∧
    isActiveData (tick resolvedState).choiceData = false :=
  tick_noop_after_resolution resolvedState rfl rfl

/-- C5: with `forcedIndex = k` pending on an active session and the
window still fully closed and inactive, the activation step of
`updateVariableChoice` drains the forced index through the commit path:
`k + 1` is written to the positive destination variable with a scheduled
reset, `forcedIndex` is cleared to `none`, the session deactivates, and
the window ends the step inactive and still fully closed — it never
remains awaiting input. -/
theorem forced_drained_at_activation (s : GameState) (d : ChoiceData) (k : Int)
    (hd : s.choiceData = some d) (hact : d.isActive = true)
    (hfk : d.forcedIndex = some k) (hv : d.variableId > 0)
    (hopen : s.window.openness = 0) (hwact : s.window.active = false) :
    (updateVariableChoice s).choiceData =
      some { d with isActive := false, forcedIndex := none } ∧
    (updateVariableChoice s).gameVariables d.variableId = k + 1 ∧
    (updateVariableChoice s).pendingResets =
      s.pendingResets ++ [(d.variableId, 100)] ∧
    (updateVariableChoice s).window.active = false ∧
    (updateVariableChoice s).window.openness = 0 ∧
    (updateVariableChoice s).window.opening = false ∧
    isActiveData (updateVariableChoice s).choiceData = false := by
  refine ⟨?_, ?_, ?_, ?_, ?_, ?_, ?_⟩ <;>
    simp [updateVariableChoice, hd, hact, hfk, hv, hopen, hwact, processOk,
          callOkHandler, select, activate, deactivate, windowOpen, windowClose,
          setValue, isActiveData]

def pendingForcedData : ChoiceData :=
  { choices := ["A", "B", "C"], variableId := 10, isActive := true,
    forcedIndex := some 2, distanceCondition := none }

def pendingForcedState : GameState :=
  { choiceData := some pendingForcedData, window := idleWindow,
    gameVariables := fun _ => -1, pendingResets := [], playerX := 0,
    playerY := 0, events := fun _ => none }

/-- Witness for C5: `forcedIndex = 2` set before activation drains to a
commit of 3 into variable 10 at the activation step. -/
theorem forced_drained_at_activation_witness :
    (updateVariableChoice pendingForcedState).choiceData =
      some { pendingForcedData with isActive := false, forcedIndex := none } ∧
    (updateVariableChoice pendingForcedState).gameVariables
      pendingForcedData.variableId = 2 + 1 ∧
    (updateVariableChoice pendingForcedState).pendingResets =
      pendingForcedState.pendingResets ++ [(pendingForcedData.variableId, 100)] ∧
    (updateVariableChoice pendingForcedState).window.active = false ∧
    (updateVariableChoice pendingForcedState).window.openness = 0 ∧
    (updateVariableChoice pendingForcedState).window.opening = false ∧
    isActiveData (updateVariableChoice pendingForcedState).choiceData = false :=
  forced_drained_at_activation pendingForcedState pendingForcedData 2 rfl rfl
    rfl (by decide) rfl rfl

/-- C6 counterexample: starting a session on variable 5 writes the `-1`
sentinel, but after the very next tick — in which the window activates —
the variable already reads 0 while the session is still active and
unresolved, because the activation step of `updateVariableChoice` resets
the destination variable to 0. So the variable does not hold `-1`
continuously until resolution. -/
theorem sentinel_overwritten_at_activation_cex :
    (setupVariableChoice ["A"] 5 none emptyState).gameVariables 5 = -1 ∧
    isActiveData
      (tick (setupVariableChoice ["A"] 5 none emptyState)).choiceData = true ∧
    (tick (setupVariableChoice ["A"] 5 none emptyState)).gameVariables 5 = 0 := by
  decide

/-- C6 amended: for an active session with `variableId > 0`, the
destination variable holds the `-1` sentinel from the `setupVariableChoice`
call only until the tick on which the presentation surface activates;
that activation step overwrites it with 0 while the session remains
active, so a concurrent reader between activation and resolution reads 0,
not `-1`. -/
theorem sentinel_until_activation (c : List String) (v : Int)
    (dc : Option DistanceCondition) (s : GameState)
    (hv : v > 0) (hina : isActiveData s.choiceData = false) :
    (setupVariableChoice c v dc s).gameVariables v = -1 ∧
    isActiveData (setupVariableChoice c v dc s).choiceData = true ∧
    ∀ (t : GameState) (d : ChoiceData), t.choiceData = some d →
      d.isActive = true → d.variableId = v → d.forcedIndex = none →
      d.distanceCondition = none → t.window.openness = 0 →
      t.window.active = false →
      (updateVariableChoice t).gameVariables v = 0 ∧
      isActiveData (updateVariableChoice t).choiceData = true := by
  refine ⟨?_, ?_, ?_⟩
  · simp [setupVariableChoice, hina, hv, setValue]
  · simp only [setupVariableChoice, hina]
    simp [isActiveData]
  · intro t d hd hact hvid hfk hdc hopen hwact
    subst hvid
    constructor
    · simp [updateVariableChoice, hd, hact, hfk, hdc, hopen, hwact, hv,
            setValue, select, activate, windowOpen]
    · simp [updateVariableChoice, hd, hact, hfk, hdc, hopen, hwact, hv,
            isActiveData]

/-- Witness for the amended C6: the concrete start writes `-1`, and the
concrete activation tick flips variable 5 to 0 with the session still
active. -/
theorem sentinel_until_activation_witness :
    (setupVariableChoice ["A"] 5 none emptyState).gameVariables 5 = -1 ∧
    isActiveData (setupVariableChoice ["A"] 5 none emptyState).choiceData = true ∧
    ((updateVariableChoice
        (setupVariableChoice ["A"] 5 none emptyState)).gameVariables 5 = 0 ∧
      isActiveData (updateVariableChoice
        (setupVariableChoice ["A"] 5 none emptyState)).choiceData = true) := by
  have h := sentinel_until_activation ["A"] 5 none emptyState (by decide) rfl
  exact ⟨h.1, h.2.1,
    h.2.2 (setupVariableChoice ["A"] 5 none emptyState)
      { choices := ["A"], variableId := 5, isActive := true,
        forcedIndex := none, distanceCondition := none }
      rfl rfl rfl rfl rfl rfl rfl⟩

def nearCondition : DistanceCondition :=
  { eventId := 2, distance := 2, index := 99 }

def forcedZeroData : ChoiceData :=
  { choices := ["X", "Y"], variableId := 20, isActive := true,
    forcedIndex := some 0, distanceCondition := some nearCondition }

def closingWindow : ChoiceWindow :=
  { openness := 128, opening := false, closing := true, active := false,
    index := -1 }

def forcedZeroState : GameState :=
  { choiceData := some forcedZeroData, window := closingWindow,
    gameVariables := fun _ => 0, pendingResets := [], playerX := 0,
    playerY := 0, events := fun i => if i = 2 then some (1, 1) else none }

/-- C4 counterexample: with `forcedIndex = 0` pending, the distance
trigger armed and in range, and the window still mid-close from an
earlier session (so neither active nor ready to activate), the tick
evaluates the distance trigger — the guard `!choiceData.forcedIndex`
treats the pending 0 as absent — and resolves the session with the
trigger's 99 written to variable 20, while the forced index is neither
drained (still `some 0`) nor committed (no `0 + 1 = 1` write). -/
theorem forced_zero_distance_cex :
    (tick forcedZeroState).gameVariables 20 = 99 ∧
    isActiveData (tick forcedZeroState).choiceData = false ∧
    (tick forcedZeroState).choiceData =
      some { forcedZeroData with isActive := false,
                                 distanceCondition := none } := by
  decide

/-- C4 amended: (i) on a tick where the window is neither active nor
fully closed after its animation frame, a pending nonzero `forcedIndex`
suppresses the distance check and everything else — the tick only
advances the window animation, so the forced index stays pending and the
trigger stays armed; (ii) on a tick where the window is active, the
pending `forcedIndex = k` is drained through the commit path (`k + 1`
written) and the distance trigger is not evaluated, remaining armed but
inert on the now-inactive session; (iii) with a pending `forcedIndex = 0`
and the window neither active nor becoming ready, the distance trigger IS
evaluated (the falsy guard ignores the pending 0) and, in range, resolves
the session with its verbatim `index`. -/
theorem forced_pending_tick_spec :
    (∀ (s : GameState) (d : ChoiceData) (dc : DistanceCondition) (k : Int),
      s.choiceData = some d → d.isActive = true → d.forcedIndex = some k →
      k ≠ 0 → d.distanceCondition = some dc → s.window.active = false →
      (windowAnim s.window).openness ≠ 0 →
      tick s = { s with window := windowAnim s.window }) ∧
    (∀ (s : GameState) (d : ChoiceData) (dc : DistanceCondition) (k : Int),
      s.choiceData = some d → d.isActive = true → d.forcedIndex = some k →
      d.distanceCondition = some dc → d.variableId > 0 →
      s.window.active = true →
      (tick s).choiceData =
        some { d with isActive := false, forcedIndex := none } ∧
      (tick s).gameVariables d.variableId = k + 1 ∧
      (tick s).pendingResets = s.pendingResets ++ [(d.variableId, 100)]) ∧
    (∀ (s : GameState) (d : ChoiceData) (dc : DistanceCondition) (ex ey : Int),
      s.choiceData = some d → d.isActive = true → d.forcedIndex = some 0 →
      d.distanceCondition = some dc → s.events dc.eventId = some (ex, ey) →
      |s.playerX - ex| + |s.playerY - ey| ≤ dc.distance →
      d.variableId > 0 → s.window.active = false →
      (windowAnim s.window).openness ≠ 0 →
      (tick s).gameVariables d.variableId = dc.index ∧
      (tick s).choiceData =
        some { d with isActive := false, distanceCondition := none }) := by
  refine ⟨?_, ?_, ?_⟩
  · intro s d dc k hd hact hfk hk hdc hwact hno
    have hwa : (windowAnim s.window).active = false := by
      rw [windowAnim_active]; exact hwact
    simp [tick, windowUpdate, updateVariableChoice, hd, hact, hfk, hdc,
          forcedTruthy, hk, hwa, hno]
  · intro s d dc k hd hact hfk hdc hv hwact
    have hwa : (windowAnim s.window).active = true := by
      rw [windowAnim_active]; exact hwact
    refine ⟨?_, ?_, ?_⟩ <;>
      simp [tick, windowUpdate, updateVariableChoice, hd, hfk, hwa, hv,
            processOk, callOkHandler, select, deactivate, windowClose, setValue]
  · intro s d dc ex ey hd hact hfk hdc hev hdist hv hwact hno
    have hwa : (windowAnim s.window).active = false := by
      rw [windowAnim_active]; exact hwact
    constructor <;>
      simp [tick, windowUpdate, updateVariableChoice, checkDistanceCondition,
            hd, hact, hfk, hdc, hev, hdist, hv, hwa, hno, forcedTruthy,
            setValue, deactivate, windowClose]

def forcedOneData : ChoiceData :=
  { choices := ["X", "Y"], variableId := 20, isActive := true,
    forcedIndex := some 1, distanceCondition := some nearCondition }

def forcedOneState : GameState :=
  { choiceData := some forcedOneData, window := closingWindow,
    gameVariables := fun _ => 0, pendingResets := [], playerX := 0,
    playerY := 0, events := fun i => if i = 2 then some (1, 1) else none }

def forcedActiveData : ChoiceData :=
  { choices := ["X", "Y"], variableId := 20, isActive := true,
    forcedIndex := some 1, distanceCondition := some nearCondition }

def forcedActiveState : GameState :=
  { choiceData := some forcedActiveData, window := openActiveWindow,
    gameVariables := fun _ => 0, pendingResets := [], playerX := 0,
    playerY := 0, events := fun i => if i = 2 then some (1, 1) else none }

/-- Witness for the amended C4 at concrete states: a suppressed tick with
`forcedIndex = 1` on a mid-close window, an active-window drain of
`forcedIndex = 1` into `2`, and a distance firing past a pending
`forcedIndex = 0`. -/
theorem forced_pending_tick_spec_witness :
    tick forcedOneState =
      { forcedOneState with window := windowAnim forcedOneState.window } ∧
    ((tick forcedActiveState).choiceData =
        some { forcedActiveData with isActive := false, forcedIndex := none } ∧
      (tick forcedActiveState).gameVariables forcedActiveData.variableId = 1 + 1 ∧
      (tick forcedActiveState).pendingResets =
        forcedActiveState.pendingResets ++ [(forcedActiveData.variableId, 100)]) ∧
    ((tick forcedZeroState).gameVariables forcedZeroData.variableId =
        nearCondition.index ∧
      (tick forcedZeroState).choiceData =
        some { forcedZeroData with isActive := false,
                                   distanceCondition := none }) :=
  ⟨forced_pending_tick_spec.1 forcedOneState forcedOneData nearCondition 1
      rfl rfl rfl (by decide) rfl rfl (by decide),
    forced_pending_tick_spec.2.1 forcedActiveState forcedActiveData
      nearCondition 1 rfl rfl rfl rfl (by decide) rfl,
    forced_pending_tick_spec.2.2 forcedZeroState forcedZeroData nearCondition
      1 1 rfl rfl rfl rfl rfl (by decide) (by decide) rfl (by decide)⟩

end VariableChoiceSystem
